import Mathlib

/-!
Verification development for the Detooz backend (FastAPI + SQLAlchemy).

Each Python service relevant to the analysis/alerting pipeline is shallowly
embedded as executable Lean definitions:

* `app/services/sms_patterns.py`   → regex rule base and `check_patterns`
* `app/services/scam_detector.py`  → `ScamDetector.analyze` / `analyze_quick`
* `app/routers/sms.py`             → persistence of `Scan` records and the
                                     guardian fan-out wiring
* `app/services/confidence_scorer.py` → `_smooth_score`,
                                     `calibrate_for_risk_level`
* `app/services/blacklist_manager.py` and `app/routers/reputation.py`
                                     → blacklist writes and the `bl:<hash>`
                                     cache key
* `app/routers/guardian_link.py`   → OTP generation / verification
* `app/services/guardian_alert_service.py` → alert fan-out
* `app/services/archiver.py`       → cold-storage archiving

Python floats are modelled as rationals (`ℚ`); all decimal constants in the
source are exact at 2 decimal places, so this is faithful for the properties
proved here.  Database tables are lists of records, the Redis cache is an
association list, and external effects (storage writes, notification sends,
DB autoincrement ids, AI-model outcomes) are explicit parameters.
-/

namespace Detooz

/-! ## A small regex engine

`re.search` on the pattern subset used by `sms_patterns.py`:
literals, `.`, `\s`, `\d`, `\w`, alternation, concatenation, `*`, and the
derived forms `?`, `+`, `{m,n}` (desugared at construction time).
Matching is case-sensitive; `check_patterns` lowercases the message first,
exactly as the Python does.
-/

inductive RE : Type where
  | eps   : RE
  | lit   : Char → RE
  | anyc  : RE                 -- `.`  (any char except newline)
  | digit : RE                 -- `\d`
  | space : RE                 -- `\s`
  | word  : RE                 -- `\w`
  | alt   : RE → RE → RE
  | seq   : RE → RE → RE
  | star  : RE → RE
deriving DecidableEq

namespace RE

/-- Python `\s` (ASCII whitespace as in CPython `re` over ASCII text). -/
def isSpaceChar (c : Char) : Bool :=
  c == ' ' || c == '\t' || c == '\n' || c == '\x0d' || c == '\x0b' || c == '\x0c'

/-- Python `\w` restricted to ASCII (all matched texts here are ASCII). -/
def isWordChar (c : Char) : Bool :=
  c.isAlphanum || c == '_'

/-- Concatenate a list of regexes. -/
def cat : List RE → RE
  | []      => .eps
  | [r]     => r
  | r :: rs => .seq r (cat rs)

/-- Literal string. -/
def str (s : String) : RE := cat (s.data.map .lit)

/-- `(a|b|c|...)` over string alternatives. -/
def alts : List String → RE
  | []      => .eps
  | [s]     => str s
  | s :: ss => .alt (str s) (alts ss)

/-- `r?` -/
def opt (r : RE) : RE := .alt r .eps

/-- `\s*` -/
def ws : RE := .star .space

/-- `.*` -/
def dots : RE := .star .anyc

/-- `\d+` -/
def digits : RE := .seq .digit (.star .digit)

/-- `\d{4,6}` -/
def dig46 : RE := cat [.digit, .digit, .digit, .digit, opt .digit, opt .digit]

/-- `\w{2,4}` -/
def word24 : RE := cat [.word, .word, opt .word, opt .word]

/--
Fuel-bounded CPS matcher: `mrun fuel r s k` is `true` iff `r` matches some
prefix of `s` whose remainder is accepted by the continuation `k`.
The `star` case only iterates on a strictly shorter remainder, which is the
standard way to give Kleene star its `re` semantics on empty-matching bodies.
-/
def mrun : Nat → RE → List Char → (List Char → Bool) → Bool
  | 0, _, _, _ => false
  | _ + 1, .eps, s, k => k s
  | _ + 1, .lit _, [], _ => false
  | f + 1, .lit c, x :: xs, k => x == c && mrun f .eps xs k
  | _ + 1, .anyc, [], _ => false
  | f + 1, .anyc, x :: xs, k => !(x == '\n') && mrun f .eps xs k
  | _ + 1, .digit, [], _ => false
  | f + 1, .digit, x :: xs, k => x.isDigit && mrun f .eps xs k
  | _ + 1, .space, [], _ => false
  | f + 1, .space, x :: xs, k => isSpaceChar x && mrun f .eps xs k
  | _ + 1, .word, [], _ => false
  | f + 1, .word, x :: xs, k => isWordChar x && mrun f .eps xs k
  | f + 1, .alt a b, s, k => mrun f a s k || mrun f b s k
  | f + 1, .seq a b, s, k => mrun f a s (fun t => mrun f b t k)
  | f + 1, .star a, s, k =>
      k s || mrun f a s (fun t => decide (t.length < s.length) && mrun f (.star a) t k)

/-- Try a match at every start position (the semantics of `re.search`). -/
def searchFrom (fuel : Nat) (r : RE) : List Char → Bool
  | [] => mrun fuel r [] (fun _ => true)
  | s@(_ :: xs) => mrun fuel r s (fun _ => true) || searchFrom fuel r xs

end RE

/-- `re.search(pattern, text) is not None`, over a character list. -/
def reSearch (r : RE) (s : List Char) : Bool :=
  RE.searchFrom (s.length * 64 + 512) r s

/-! ## Pattern rule base (`app/services/sms_patterns.py`)

Each Lean regex below is a direct transcription of the Python raw-string
pattern shown in the comment next to it.  Bucket order and pattern order
follow the source dict literally (dict iteration order = insertion order).
-/

namespace Pat

open RE

/-- Alternation of a list of regexes (general form of a `(..|..)` group). -/
def altR : List RE → RE
  | []      => .eps
  | [r]     => r
  | r :: rs => .alt r (altR rs)

def HIGH_RISK_PATTERNS : List (String × List RE) := [
  ("kyc_scam", [
    cat [str ("kyc"), ws, alts ["update", "expire", "suspend", "block", "verify", "pending"]],
      -- kyc\s*(update|expire|suspend|block|verify|pending)
    cat [alts ["pan", "aadhaar"], ws, alts ["link", "update", "verify", "expire"], ws, str ("urgent")],
      -- (pan|aadhaar)\s*(link|update|verify|expire)\s*urgent
    cat [str ("bank"), ws, str ("account"), ws, alts ["block", "suspend", "close", "frozen"]],
      -- bank\s*account\s*(block|suspend|close|frozen)
    cat [str ("atm"), ws, str ("card"), ws, alts ["block", "suspend", "expire"]],
      -- atm\s*card\s*(block|suspend|expire)
    cat [str ("dear"), ws, str ("customer"), dots, str ("account"), dots, str ("block")],
      -- dear\s*customer.*account.*block
    cat [str ("your"), ws, str ("a/c"), ws, str ("will"), ws, str ("be"), ws, str ("blocked")],
      -- your\s*a/c\s*will\s*be\s*blocked
    cat [str ("complete"), ws, str ("your"), ws, str ("kyc"), ws, str ("immediately")]]),
      -- complete\s*your\s*kyc\s*immediately
  ("prize_scam", [
    cat [str ("won"), ws, altR [str ("lottery"), str ("prize"),
      cat [str ("rs"), opt (.lit '.')], .lit '₹', str ("lakh"), str ("crore"), str ("cash")]],
      -- won\s*(lottery|prize|rs\.?|₹|lakh|crore|cash)
    cat [str ("claim"), ws, alts ["prize", "reward", "money", "gift"]],
      -- claim\s*(prize|reward|money|gift)
    cat [str ("congratulations"), dots, str ("won")],
      -- congratulations.*won
    cat [str ("lucky"), ws, alts ["winner", "draw", "customer"]],
      -- lucky\s*(winner|draw|customer)
    cat [str ("selected"), ws, str ("for"), ws, alts ["prize", "reward", "cashback"]],
      -- selected\s*for\s*(prize|reward|cashback)
    cat [.lit '₹', ws, digits, ws, alts ["lakh", "crore"], ws, str ("prize")]]),
      -- ₹\s*\d+\s*(lakh|crore)\s*prize
  ("otp_scam", [
    cat [str ("send"), ws, opt (cat [str ("me"), ws]), str ("otp")],
      -- send\s*(me\s*)?otp
    cat [str ("share"), ws, opt (cat [str ("your"), ws]), str ("otp")],
      -- share\s*(your\s*)?otp
    cat [str ("otp"), ws, alts ["is", ":"], ws, dig46, dots, str ("share")],
      -- otp\s*(is|:)\s*\d{4,6}.*share
    cat [str ("tell"), ws, str ("me"), ws, str ("otp")],
      -- tell\s*me\s*otp
    cat [str ("give"), ws, str ("otp")],
      -- give\s*otp
    cat [str ("need"), ws, str ("your"), ws, str ("otp")]]),
      -- need\s*your\s*otp
  ("job_scam", [
    cat [alts ["job", "work"], ws, str ("offer"), dots,
      alts ["payment", "fee", "deposit", "registration"]],
      -- (job|work)\s*offer.*(payment|fee|deposit|registration)
    cat [str ("part"), ws, str ("time"), ws, str ("job"), dots, alts ["pay", "fee", "deposit"]],
      -- part\s*time\s*job.*(pay|fee|deposit)
    cat [str ("work"), ws, str ("from"), ws, str ("home"), dots,
      str ("earn"), ws, opt (.lit '₹'), digits],
      -- work\s*from\s*home.*earn\s*₹?\d+
    cat [str ("hiring"), dots, str ("pay"), ws, str ("registration")],
      -- hiring.*pay\s*registration
    cat [str ("earn"), ws, .lit '₹', ws, digits, dots, str ("per"), ws, alts ["day", "hour"]]]),
      -- earn\s*₹\s*\d+.*per\s*(day|hour)
  ("loan_scam", [
    cat [str ("loan"), ws, str ("approved"), ws, alts ["instantly", "now", "today"]],
      -- loan\s*approved\s*(instantly|now|today)
    cat [str ("pre"), opt (.lit '-'), str ("approved"), ws, str ("loan")],
      -- pre-?approved\s*loan
    cat [str ("instant"), ws, str ("loan"), ws, .lit '₹'],
      -- instant\s*loan\s*₹
    cat [str ("personal"), ws, str ("loan"), dots, str ("processing"), ws, str ("fee")],
      -- personal\s*loan.*processing\s*fee
    cat [str ("loan"), ws, str ("sanction"), dots, str ("pay"), ws, .lit '₹']]),
      -- loan\s*sanction.*pay\s*₹
  ("investment_scam", [
    cat [str ("investment"), dots, str ("guaranteed"), ws, str ("return")],
      -- investment.*guaranteed\s*return
    cat [str ("earn"), ws, digits, .lit '%', ws, str ("daily")],
      -- earn\s*\d+%\s*daily
    cat [str ("double"), ws, str ("your"), ws, str ("money")],
      -- double\s*your\s*money
    cat [str ("crypto"), dots, str ("guaranteed"), ws, str ("profit")],
      -- crypto.*guaranteed\s*profit
    cat [str ("trading"), ws, str ("tips"), dots, str ("100%"), ws, str ("profit")]]),
      -- trading\s*tips.*100%\s*profit
  ("govt_scam", [
    cat [str ("income"), ws, str ("tax"), ws, str ("refund"), dots, str ("click")],
      -- income\s*tax\s*refund.*click
    cat [str ("it"), ws, str ("department"), dots, str ("verify")],
      -- it\s*department.*verify
    cat [str ("govt"), ws, str ("scheme"), dots, str ("registration"), ws, str ("fee")],
      -- govt\s*scheme.*registration\s*fee
    cat [str ("pm"), ws, str ("kisan"), dots, str ("verify"), ws, str ("now")],
      -- pm\s*kisan.*verify\s*now
    cat [str ("subsidy"), dots, str ("click"), ws, str ("link")]]),
      -- subsidy.*click\s*link
  ("delivery_scam", [
    cat [str ("package"), ws, alts ["held", "stuck"], dots, str ("pay"), ws, str ("fee")],
      -- package\s*(held|stuck).*pay\s*fee
    cat [str ("customs"), ws, str ("duty"), dots, str ("pay"), ws, .lit '₹'],
      -- customs\s*duty.*pay\s*₹
    cat [str ("parcel"), ws, str ("held"), dots, str ("verification")],
      -- parcel\s*held.*verification
    cat [str ("delivery"), ws, str ("failed"), dots, str ("update"), ws, str ("address")]])]
      -- delivery\s*failed.*update\s*address

def MEDIUM_RISK_PATTERNS : List (String × List RE) := [
  ("suspicious_link", [
    str ("bit.ly"),                                   -- bit\.ly
    str ("tinyurl"),                                  -- tinyurl
    str ("short.io"),                                 -- short\.io
    str ("t.co"),                                     -- t\.co
    str ("goo.gl"),                                   -- goo\.gl
    cat [str ("link"), .lit '.', word24, .lit '/'],   -- link\.\w{2,4}/
    cat [str ("click"), ws, str ("here"), ws, str ("now")],   -- click\s*here\s*now
    cat [str ("click"), ws, str ("this"), ws, str ("link")]]), -- click\s*this\s*link
  ("urgency", [
    cat [str ("act"), ws, str ("now")],               -- act\s*now
    cat [str ("urgent"), ws, str ("action")],         -- urgent\s*action
    cat [str ("expire"), opt (.lit 's'), ws, altR [str ("today"), str ("tonight"),
      cat [str ("in"), ws, digits, ws, str ("hour"), opt (.lit 's')]]],
      -- expires?\s*(today|tonight|in\s*\d+\s*hours?)
    cat [str ("last"), ws, str ("chance")],           -- last\s*chance
    cat [str ("limited"), ws, str ("time")],          -- limited\s*time
    cat [str ("offer"), ws, str ("end"), opt (.lit 's'), ws, alts ["today", "soon"]],
      -- offer\s*ends?\s*(today|soon)
    cat [str ("respond"), ws, str ("immediately")],   -- respond\s*immediately
    cat [str ("don\x27t"), ws, str ("miss")]]),       -- don't\s*miss
  ("money_request", [
    cat [str ("transfer"), ws, opt (.lit '₹'), digits],          -- transfer\s*₹?\d+
    cat [str ("pay"), ws, opt (.lit '₹'), digits, ws, str ("to")], -- pay\s*₹?\d+\s*to
    cat [str ("send"), ws, str ("money")],                       -- send\s*money
    cat [str ("need"), ws, opt (.lit '₹'), digits, ws, str ("urgently")]]),
      -- need\s*₹?\d+\s*urgently
  ("verification", [
    cat [str ("verify"), ws, str ("your"), ws, alts ["account", "identity", "details"]],
      -- verify\s*your\s*(account|identity|details)
    cat [str ("confirm"), ws, str ("your"), ws, alts ["details", "account"]],
      -- confirm\s*your\s*(details|account)
    cat [str ("update"), ws, str ("your"), ws, alts ["profile", "details"]]])]
      -- update\s*your\s*(profile|details)

end Pat

/-! ## `check_patterns` (`sms_patterns.py`, lines 153–224) -/

/-- Result dict of `check_patterns` / detector stages.  `matched_patterns`
keeps the bucket name of each matching pattern (the Python dict also carries
the pattern source string, which is irrelevant to every decision). -/
structure PatVerdict where
  risk_level       : String
  reason           : String
  scam_type        : Option String
  confidence       : ℚ
  matched_patterns : List String
deriving DecidableEq

/-- `type.replace("_", " ")` as used in the reason strings. -/
def underscoreToSpace (s : String) : String :=
  String.mk (s.data.map (fun c => if c = '_' then ' ' else c))

/-- One entry (the bucket name) per matching pattern, in source order. -/
def matchesIn (msg : List Char) (buckets : List (String × List RE)) : List String :=
  buckets.flatMap (fun b => (b.2.filter (fun p => reSearch p msg)).map (fun _ => b.1))

/-- `message.lower()` as a character list. -/
def lowerChars (s : String) : List Char := s.data.map Char.toLower

/--
`check_patterns(message, sender)`.  The loop over `SAFE_SENDER_PATTERNS` in
the source has an empty body (`pass`), so the sender argument has no effect
on the result; it is kept in the signature for fidelity.
-/
def check_patterns (message : String) (sender : String) : PatVerdict :=
  let _ := sender
  let messageLower := lowerChars message
  let matchedHigh := matchesIn messageLower Pat.HIGH_RISK_PATTERNS
  let matchedMedium := matchesIn messageLower Pat.MEDIUM_RISK_PATTERNS
  match matchedHigh with
  | t :: _ =>
      { risk_level := "HIGH"
        reason := "Detected " ++ underscoreToSpace t ++ " pattern"
        scam_type := some t
        confidence := min (0.85 + matchedHigh.length * 0.03) 0.99
        matched_patterns := matchedHigh }
  | [] =>
    match matchedMedium with
    | m :: _ =>
        if 3 ≤ matchedMedium.length then
          { risk_level := "HIGH"
            reason := "Multiple suspicious patterns detected"
            scam_type := some "Multiple Indicators"
            confidence := 0.75
            matched_patterns := matchedMedium }
        else
          { risk_level := "MEDIUM"
            reason := "Detected " ++ underscoreToSpace m
            scam_type := some m
            confidence := 0.5 + matchedMedium.length * 0.1
            matched_patterns := matchedMedium }
    | [] =>
        { risk_level := "LOW"
          reason := "No suspicious patterns detected"
          scam_type := none
          confidence := 0.7
          matched_patterns := [] }

/-! ## `ScamDetector` (`app/services/scam_detector.py`)

`analyze` runs the pattern stage, optionally the local MobileBERT model, and
optionally the Groq LLM.  The two model stages are external effects; their
outcomes are passed as parameters:

* `localModel : Option DetectVerdict` — `None` when no local model is loaded
  (`self.local_model is None`), otherwise the inference result;
* `groq : Option (Except Unit DetectVerdict)` — `None` when no Groq client is
  configured (`self.client is None`); `some (.ok v)` is the value returned by
  `_analyze_with_ai` (which already maps a JSON-decode failure to the
  `MEDIUM`/`0.5` fallback dict); `some (.error ())` is a raised exception,
  caught by `analyze` which then falls back to the pattern result.
-/

/-- The four-field result dict produced by the detector stages. -/
structure DetectVerdict where
  risk_level : String
  reason     : String
  scam_type  : Option String
  confidence : ℚ
deriving DecidableEq

/-- Projection of a pattern verdict to the four returned fields. -/
def PatVerdict.toDetect (p : PatVerdict) : DetectVerdict :=
  { risk_level := p.risk_level, reason := p.reason,
    scam_type := p.scam_type, confidence := p.confidence }

/-- The Groq branch of `ScamDetector.analyze` (lines 185–213). -/
def analyzeGroqStage (local_result : PatVerdict)
    (groq : Option (Except Unit DetectVerdict)) : DetectVerdict :=
  match groq with
  | none => local_result.toDetect            -- no client configured
  | some (.error ()) => local_result.toDetect -- exception → fall back to local
  | some (.ok ai) =>
      if ai.risk_level = "HIGH" then ai
      else if local_result.risk_level = "MEDIUM" ∧ ai.risk_level = "LOW" then
        { risk_level := "MEDIUM", reason := local_result.reason,
          scam_type := local_result.scam_type,
          confidence := max local_result.confidence 0.5 }
      else ai

/-- `ScamDetector.analyze(message, sender)` (lines 150–221). -/
def ScamDetector.analyze (localModel : Option DetectVerdict)
    (groq : Option (Except Unit DetectVerdict)) (message sender : String) :
    DetectVerdict :=
  let local_result := check_patterns message sender
  if (local_result.risk_level = "HIGH" ∧ 0.85 ≤ local_result.confidence) ∨
     (local_result.risk_level = "LOW" ∧ 0.9 ≤ local_result.confidence) then
    local_result.toDetect
  else
    match localModel with
    | some lr =>
        if 0.9 < lr.confidence then lr else analyzeGroqStage local_result groq
    | none => analyzeGroqStage local_result groq

/-- `ScamDetector.analyze_quick(message, sender)` (lines 332–343):
patterns only, no AI. -/
def ScamDetector.analyze_quick (message sender : String) : DetectVerdict :=
  (check_patterns message sender).toDetect

/-! ## `Scan` persistence in the SMS router (`app/routers/sms.py`)

`analyze_sms` (non-blocked path, lines 116–136) builds the `Scan` row below
from the detection result and commits it.  The fields mirror
`models.py::Scan`; `message` is the nullable stored-body column.
-/

structure Scan where
  user_id          : Nat
  sender           : Option String
  message          : Option String        -- nullable `Text` column
  message_preview  : Option String
  platform         : String
  risk_level       : String
  risk_reason      : Option String
  scam_type        : Option String
  confidence       : ℚ
  is_blocked       : Bool
  guardian_alerted : Bool
deriving DecidableEq

/-- `sms.message[:200] if len(sms.message) > 200 else sms.message`. -/
def previewOf (m : String) : String :=
  if 200 < m.data.length then String.mk (m.data.take 200) else m

/-- The `Scan(...)` constructed and committed by `analyze_sms` for a
non-blocked sender (lines 120–135).  The body is stored unconditionally. -/
def analyze_sms_scan (user_id : Nat) (sender message : String)
    (result : DetectVerdict) : Scan :=
  { user_id := user_id
    sender := some sender
    message := some message
    message_preview := some (previewOf message)
    platform := "SMS"
    risk_level := result.risk_level
    risk_reason := some result.reason
    scam_type := result.scam_type
    confidence := result.confidence
    is_blocked := false
    guardian_alerted := false }

/-- The guard at `sms.py:139`: the guardian fan-out background task is
scheduled only when the detector returned `HIGH`. -/
def analyze_sms_schedules_fanout (result : DetectVerdict) : Bool :=
  result.risk_level == "HIGH"

/-! ## Confidence scorer (`app/services/confidence_scorer.py`) -/

/-- `_smooth_score(raw_score)` (lines 136–151). -/
def smooth_score (raw_score : ℚ) : ℚ :=
  let raw := max 0 (min 1 raw_score)
  if raw ≤ 0.1 then raw * 1.5
  else if 0.9 ≤ raw then 0.85 + (raw - 0.9) * 1.5
  else raw

/--
Python's built-in `round(x, 2)` on an exact value: scale by 100 and round
half-to-even (banker's rounding), the tie rule `round` uses.
-/
def pyRound2 (q : ℚ) : ℚ :=
  let scaled := q * 100
  let fl : ℤ := ⌊scaled⌋
  let frac := scaled - fl
  let n : ℤ :=
    if frac < 1/2 then fl
    else if 1/2 < frac then fl + 1
    else if fl % 2 = 0 then fl else fl + 1
  (n : ℚ) / 100

/-- Result dict of `calibrate_for_risk_level`. -/
structure CalibResult where
  risk_level : String
  confidence : ℚ
  adjusted   : Bool
deriving DecidableEq

/-- The `thresholds` dict of `calibrate_for_risk_level`, with
`.get(raw_risk_level, (0.0, 1.0))` as the final branch. -/
def thresholds (raw_risk_level : String) : ℚ × ℚ :=
  if raw_risk_level = "HIGH" then (0.75, 1.0)
  else if raw_risk_level = "MEDIUM" then (0.45, 0.74)
  else if raw_risk_level = "LOW" then (0.0, 0.44)
  else (0.0, 1.0)

/-- `calibrate_for_risk_level(raw_risk_level, raw_confidence)` (lines 214–244). -/
def calibrate_for_risk_level (raw_risk_level : String) (raw_confidence : ℚ) :
    CalibResult :=
  let min_conf := (thresholds raw_risk_level).1
  let max_conf := (thresholds raw_risk_level).2
  let adjusted :=
    if raw_confidence < min_conf then min_conf + 0.05
    else if max_conf < raw_confidence then max_conf
    else raw_confidence
  { risk_level := raw_risk_level
    confidence := pyRound2 adjusted
    adjusted := if raw_confidence = adjusted then false else true }

/-! ## Blacklist writes (`app/services/blacklist_manager.py`,
`app/routers/reputation.py`)

The DB table is a list of `BLEntry` (fields per `models.py::Blacklist`); the
Redis cache is an association list of `bl:<hash>` keys.  The SHA-256 digest
is abstracted as a parameter `H : String → String`: none of the statements
below depend on what the digest computes, only on which key is derived from
the normalized value.
-/

structure BLEntry where
  type              : String
  value             : String
  value_hash        : String
  source            : String
  reports_count     : Nat
  first_reported_at : Nat
  last_reported_at  : Nat
  is_verified       : Bool
deriving DecidableEq

structure BLState where
  entries : List BLEntry
  cache   : List (String × String)
deriving DecidableEq

/-- `re.sub(r'[^\d+]', '', value)` — keep digits and every `+`. -/
def keepDigitsPlus (s : String) : List Char :=
  s.data.filter (fun c => c.isDigit || c == '+')

/-- Python `str.strip()` over a character list. -/
def stripEnds (l : List Char) : List Char :=
  ((l.dropWhile RE.isSpaceChar).reverse.dropWhile RE.isSpaceChar).reverse

/-- `value.lower().strip()` (character-list arithmetic so that the kernel can
evaluate it; `String.toLower`/`String.trim` are position-based loops). -/
def lowerStrip (s : String) : List Char :=
  stripEnds (s.data.map Char.toLower)

/-- `re.sub(r'^https?://', '', v)` — the anchor means at most one removal. -/
def stripScheme (v : List Char) : List Char :=
  if ("https://").data.isPrefixOf v then v.drop 8
  else if ("http://").data.isPrefixOf v then v.drop 7
  else v

/-- `re.sub(r'/$', '', v)` — removes one trailing slash. -/
def stripTrailingSlash (v : List Char) : List Char :=
  if v.getLast? == some '/' then v.dropLast else v

/-- The characters after the first `//`, if any. -/
def afterDoubleSlash : List Char → Option (List Char)
  | '/' :: '/' :: rest => some rest
  | _ :: rest => afterDoubleSlash rest
  | [] => none

/-- `urlparse(u).netloc or urlparse(u).path.split('/')[0]` for the string the
domain branch feeds it (`http://` is prefixed when no scheme is present). -/
def netlocOf (v : List Char) : List Char :=
  let u := if ("http").data.isPrefixOf v then v else ("http://").data ++ v
  match afterDoubleSlash u with
  | some rest => rest.takeWhile (fun c => !(c == '/'))
  | none => u.takeWhile (fun c => !(c == '/'))

/--
`BlacklistManager.normalize_value(value, value_type)` (lines 24–52).  The
router `reputation.py::normalize_value` (lines 54–83) is byte-for-byte
identical on the three valid types, so both call sites share this
definition.
-/
def normalize_value (value : String) (value_type : String) : String :=
  if value_type = "phone" then
    let digits := keepDigitsPlus value
    if digits.headD ' ' == '+' then String.mk digits
    else if ("91").data.isPrefixOf digits ∧ digits.length = 12 then
      "+" ++ String.mk digits
    else
      "+91" ++ String.mk (digits.drop (digits.length - 10))  -- digits[-10:]
  else if value_type = "url" then
    String.mk (stripTrailingSlash (stripScheme (lowerStrip value)))
  else if value_type = "domain" then
    let v := lowerStrip value
    if v.contains '/' then String.mk (netlocOf v) else String.mk v
  else String.mk (stripEnds value.data)

/--
`BlacklistManager.auto_blacklist(value, content_type, source, db, **kwargs)`
(lines 59–109).  Returns the new state and the `True`/`False` result.  The
training-data kwargs populate columns that `models.py::Blacklist` does not
declare, so they carry no observable state here and are omitted.

Note the two write paths: the *insert* path deletes the cache key
`bl:<hash>` after the commit; the *increment* path returns without touching
the cache.
-/
def auto_blacklist (H : String → String) (value content_type source : String)
    (now : Nat) (st : BLState) : BLState × Bool :=
  if ¬ (content_type = "url" ∨ content_type = "phone" ∨ content_type = "domain") then
    (st, false)
  else
    let normalized := normalize_value value content_type
    let value_hash := H normalized
    match st.entries.find? (fun e => e.value_hash == value_hash && e.type == content_type) with
    | some _ =>
        -- existing.reports_count += 1; existing.last_reported_at = now; commit
        ({ st with entries := st.entries.map (fun e =>
            if e.value_hash == value_hash && e.type == content_type then
              { e with reports_count := e.reports_count + 1, last_reported_at := now }
            else e) },
         false)
    | none =>
        -- insert; commit; redis_client.delete(f"bl:{value_hash}")
        ({ entries := st.entries ++ [{
             type := content_type, value := normalized, value_hash := value_hash,
             source := source, reports_count := 1,
             first_reported_at := now, last_reported_at := now,
             is_verified := false }],
           cache := st.cache.filter (fun kv => !(kv.1 == "bl:" ++ value_hash)) },
         true)

/--
`reputation.py::report_scam` (lines 155–203): community reporting endpoint.
Neither the increment branch nor the insert branch performs any cache
operation.  Returns the new state and the reported `reports_count`.
-/
def report_scam (H : String → String) (value rtype : String) (now : Nat)
    (st : BLState) : Except String (BLState × Nat) :=
  if ¬ (rtype = "url" ∨ rtype = "phone" ∨ rtype = "domain") then
    .error ("Type must be url, phone, or domain")
  else
    let normalized := normalize_value value rtype
    let value_hash := H normalized
    match st.entries.find? (fun e => e.value_hash == value_hash && e.type == rtype) with
    | some e =>
        .ok ({ st with entries := st.entries.map (fun x =>
            if x.value_hash == value_hash && x.type == rtype then
              { x with reports_count := x.reports_count + 1, last_reported_at := now }
            else x) },
          e.reports_count + 1)
    | none =>
        .ok ({ st with entries := st.entries ++ [{
            type := rtype, value := normalized, value_hash := value_hash,
            source := "community", reports_count := 1,
            first_reported_at := now, last_reported_at := now,
            is_verified := false }] },
          1)

/-! ## Guardian linking (`app/routers/guardian_link.py`)

The router manipulates a `guardian_id` attribute on `GuardianLink` rows and
the `guardian_links` table is queried/deleted through that column elsewhere
(e.g. `admin.py` raw SQL), so the link record here carries `guardian_id`
following the router.  Times are seconds; the OTP code and the autoincrement
id of a freshly inserted row are parameters.
-/

namespace GLink

structure UserRec where
  id    : Nat
  email : String
deriving DecidableEq

structure LinkRec where
  id             : Nat
  user_id        : Nat
  guardian_id    : Option Nat
  otp_code       : Option String
  otp_expires_at : Option Nat
  status         : String
  verified_at    : Option Nat
deriving DecidableEq

structure GLState where
  users : List UserRec
  links : List LinkRec
deriving DecidableEq

/-- `generate_link_otp` (lines 61–122).  `otp` is the freshly generated
6-digit code, `newId` the row id the DB would assign on insert.  Returns the
new state and `expires_in_minutes = 10`. -/
def generate_link_otp (cu : UserRec) (otp : String) (newId : Nat) (now : Nat)
    (st : GLState) : Except String (GLState × Nat) :=
  -- constraint: a user who actively protects someone cannot be protected
  if st.links.any (fun l => l.guardian_id == some cu.id && l.status == "active") then
    .error ("You are currently a Guardian for someone.")
  else
    let expires_at := now + 600          -- timedelta(minutes=10)
    match st.links.find? (fun l => l.user_id == cu.id && l.status == "pending") with
    | some ex =>
        -- refresh the existing pending link with the new OTP
        .ok ({ st with links := st.links.map (fun l =>
            if l.id == ex.id then
              { l with otp_code := some otp, otp_expires_at := some expires_at }
            else l) }, 10)
    | none =>
        .ok ({ st with links := st.links ++ [{
            id := newId, user_id := cu.id, guardian_id := none,
            otp_code := some otp, otp_expires_at := some expires_at,
            status := "pending", verified_at := none }] }, 10)

/-- Request body of `verify_otp_and_link`. -/
structure VerifyReq where
  user_email : String
  otp_code   : String
deriving DecidableEq

/-- The row update in step 7 of `verify_otp_and_link`: activate the link and
consume the code, all in the single commit. -/
def activateLink (st : GLState) (link : LinkRec) (cu : UserRec) (now : Nat) :
    GLState :=
  { st with links := st.links.map (fun l =>
      if l.id == link.id then
        { l with
          guardian_id := some cu.id
          status := "active"
          verified_at := some now
          otp_code := none
          otp_expires_at := none }
      else l) }

/-- `verify_otp_and_link` (lines 191–273).  `cu` is the authenticated
guardian-side caller. -/
def verify_otp_and_link (cu : UserRec) (d : VerifyReq) (now : Nat)
    (st : GLState) : Except String GLState :=
  -- 1. self check
  if cu.email = d.user_email then .error ("You cannot be your own guardian.")
  else
    -- 2. find the protected user
    match st.users.find? (fun u => u.email == d.user_email) with
    | none => .error ("User not found")
    | some protected_user =>
      -- 3. the guardian may not have guardians of their own
      if st.links.any (fun l => l.user_id == cu.id && l.status == "active") then
        .error ("You have guardians protecting you.")
      -- 4. the protected user may not be a guardian for others
      else if st.links.any (fun l =>
          l.guardian_id == some protected_user.id && l.status == "active") then
        .error ("Chains are not allowed.")
      else
        -- 5. find the pending link carrying this OTP
        match st.links.find? (fun l =>
            l.user_id == protected_user.id && l.otp_code == some d.otp_code &&
            l.status == "pending") with
        | none => .error ("Invalid OTP or no pending link")
        | some link =>
          -- 6. expiry check (skipped when no expiry is set, as in the source)
          match link.otp_expires_at with
          | some exp =>
              if exp < now then .error ("OTP has expired.")
              else .ok (activateLink st link cu now)
          | none => .ok (activateLink st link cu now)

end GLink

/-! ## Guardian alert fan-out (`app/services/guardian_alert_service.py`) and
the wiring in `app/routers/sms.py` -/

namespace GAlert

/-- The fields of `GuardianLink` read by the alert service. -/
structure ALink where
  user_id             : Nat
  guardian_account_id : Option Nat
  status              : String
deriving DecidableEq

/-- A `GuardianAlert` row as inserted by the fan-out. -/
structure AlertRec where
  guardian_account_id : Nat
  user_id             : Nat
  scan_id             : Nat
  status              : String
deriving DecidableEq

/-- `GuardianAlertService._should_alert(risk_level, threshold)` (lines 68–85). -/
def should_alert (risk_level threshold : String) : Bool :=
  if threshold = "HIGH" then risk_level == "HIGH"
  else if threshold = "MEDIUM" then risk_level == "HIGH" || risk_level == "MEDIUM"
  else if threshold = "ALL" then true
  else risk_level == "HIGH"

/--
`GuardianAlertService.create_alerts_for_scan(db, user, scan)` (lines 12–66).
`settingsThreshold` is the user's `alert_guardians_threshold` row, `none`
when the user has no `UserSettings` row (defaulting to `"HIGH"`).
Returns the inserted alerts, the scan's new `guardian_alerted` flag, and the
returned count.
-/
def create_alerts_for_scan (settingsThreshold : Option String)
    (links : List ALink) (userId scanId : Nat) (riskLevel : String)
    (scanAlerted : Bool) : List AlertRec × Bool × Nat :=
  let threshold := settingsThreshold.getD "HIGH"
  if ¬ should_alert riskLevel threshold then ([], scanAlerted, 0)
  else
    let active := links.filter (fun l => l.user_id == userId && l.status == "active")
    let alerts := active.filterMap (fun l => l.guardian_account_id.map (fun g =>
      ({ guardian_account_id := g, user_id := userId, scan_id := scanId,
         status := "pending" } : AlertRec)))
    if 0 < alerts.length then (alerts, true, alerts.length)
    else (alerts, scanAlerted, alerts.length)

/-- A legacy `Guardian` row (`models.py::Guardian`) as read by the function
below. -/
structure LegacyGuardian where
  user_id         : Nat
  is_verified     : Bool
  has_contact_key : Bool        -- callmebot_apikey or telegram_chat_id set
deriving DecidableEq

/--
The module-level `async def send_guardian_alerts` defined at `sms.py:425`.
Because it is defined after the guardian-alert-service helper of the same
name is imported at `sms.py:10`, it rebinds that module-global
name, and `analyze_sms` (which resolves the name at call time) schedules
*this* function, not the service helper.  Its body iterates legacy
`Guardian` rows and calls `alert_service.send_scam_alert` — but
`alert_service` is not imported in `sms.py`, so the first guardian with a
contact key raises `NameError`, swallowed by the bare `except`.  On no path
does it construct a `GuardianAlert` row.  Result: the alerts inserted (always
none) and the scan's `guardian_alerted` flag.
-/
def sms_send_guardian_alerts (legacy : List LegacyGuardian) (userId : Nat)
    (scanAlerted : Bool) : List AlertRec × Bool :=
  let gs := legacy.filter (fun g => g.user_id == userId && g.is_verified)
  if gs.any (fun g => g.has_contact_key) then
    ([], scanAlerted)   -- NameError on alert_service → except → no commit
  else
    ([], scanAlerted)   -- loop sends nothing; commit with no new rows

end GAlert

/-! ## Archiver (`app/services/archiver.py`) -/

/-- A scan row as seen by the archiver (only the fields the selection and
deletion depend on). -/
structure ScanRow where
  id         : Nat
  created_at : Int
deriving DecidableEq

/-- The result dict shapes of `archive_old_scans`. -/
inductive ArchResult where
  | empty  : ArchResult                              -- {"archived_count": 0, ...}
  | failed (error : String) : ArchResult             -- {"error": str(e)}
  | warned (path : String) : ArchResult              -- {"warning": ..., "path": path}
  | done (archived_count : Nat) (filename : String) : ArchResult
deriving DecidableEq

/--
`ArchiverService.archive_old_scans(db, days_to_keep)` (lines 63–119).
`writeOutcome` is the result of `self.storage.save` (`.ok path` or a raised
exception `.error e`); `deleteOk` is whether the DB delete succeeds.
Returns the rows remaining in the store and the result dict.
-/
def archive_old_scans (db : List ScanRow) (now days_to_keep : Int)
    (writeOutcome : Except String String) (deleteOk : Bool) :
    List ScanRow × ArchResult :=
  let cutoff_date := now - days_to_keep * 86400
  let scans := db.filter (fun s => decide (s.created_at < cutoff_date))
  if scans.isEmpty then (db, .empty)
  else
    match writeOutcome with
    | .error e => (db, .failed e)           -- write failed: nothing deleted
    | .ok path =>
        if deleteOk then
          (db.filter (fun s => !(scans.any (fun t => t.id == s.id))),
           .done scans.length path)
        else
          (db, .warned path)                -- delete failed: rows remain

end Detooz

namespace Detooz

/-! # Theorems -/

/--
C8: For every input message, `check_patterns` returns: HIGH with the first
matching bucket and confidence `min (0.85 + 0.03·highMatches) 0.99` when at
least one HIGH pattern matches; HIGH / "Multiple Indicators" / 0.75 when no
HIGH pattern but ≥ 3 MEDIUM patterns match; MEDIUM with confidence
`0.5 + 0.1·mediumMatches` for 1–2 MEDIUM matches; LOW / 0.7 otherwise.
-/
theorem check_patterns_decision_rule (message sender : String) :
    (matchesIn (lowerChars message) Pat.HIGH_RISK_PATTERNS ≠ [] →
      (check_patterns message sender).risk_level = "HIGH" ∧
      (check_patterns message sender).scam_type =
        (matchesIn (lowerChars message) Pat.HIGH_RISK_PATTERNS).head? ∧
      (check_patterns message sender).confidence =
        min (0.85 + ((matchesIn (lowerChars message) Pat.HIGH_RISK_PATTERNS).length : ℚ) * 0.03) 0.99) ∧
    (matchesIn (lowerChars message) Pat.HIGH_RISK_PATTERNS = [] →
      3 ≤ (matchesIn (lowerChars message) Pat.MEDIUM_RISK_PATTERNS).length →
      (check_patterns message sender).risk_level = "HIGH" ∧
      (check_patterns message sender).scam_type = some "Multiple Indicators" ∧
      (check_patterns message sender).confidence = 0.75) ∧
    (matchesIn (lowerChars message) Pat.HIGH_RISK_PATTERNS = [] →
      1 ≤ (matchesIn (lowerChars message) Pat.MEDIUM_RISK_PATTERNS).length →
      (matchesIn (lowerChars message) Pat.MEDIUM_RISK_PATTERNS).length ≤ 2 →
      (check_patterns message sender).risk_level = "MEDIUM" ∧
      (check_patterns message sender).confidence =
        0.5 + ((matchesIn (lowerChars message) Pat.MEDIUM_RISK_PATTERNS).length : ℚ) * 0.1) ∧
    (matchesIn (lowerChars message) Pat.HIGH_RISK_PATTERNS = [] →
      matchesIn (lowerChars message) Pat.MEDIUM_RISK_PATTERNS = [] →
      (check_patterns message sender).risk_level = "LOW" ∧
      (check_patterns message sender).scam_type = none ∧
      (check_patterns message sender).confidence = 0.7) := by
  refine ⟨?_, ?_, ?_, ?_⟩
  · intro hne
    rcases hmh : matchesIn (lowerChars message) Pat.HIGH_RISK_PATTERNS with _ | ⟨t, ts⟩
    · exact absurd hmh hne
    · simp [check_patterns, hmh, List.head?]
  · intro hmh h3
    rcases hmm : matchesIn (lowerChars message) Pat.MEDIUM_RISK_PATTERNS with _ | ⟨m, ms⟩
    · rw [hmm] at h3; simp at h3
    · rw [hmm] at h3
      simp only [check_patterns, hmh, hmm]
      rw [if_pos h3]
      simp
  · intro hmh h1 h2
    rcases hmm : matchesIn (lowerChars message) Pat.MEDIUM_RISK_PATTERNS with _ | ⟨m, ms⟩
    · rw [hmm] at h1; simp at h1
    · rw [hmm] at h2
      simp only [check_patterns, hmh, hmm]
      rw [if_neg (by omega)]
      simp
  · intro hmh hmm
    simp [check_patterns, hmh, hmm]

/--
Witness for C8 at the concrete message "give otp": exactly one HIGH pattern
(bucket `otp_scam`) matches, so the verdict is HIGH with that bucket.
-/
theorem check_patterns_decision_rule_witness :
    (check_patterns ("give otp") ("")).risk_level = "HIGH" ∧
    (check_patterns ("give otp") ("")).scam_type =
      (matchesIn (lowerChars ("give otp")) Pat.HIGH_RISK_PATTERNS).head? := by
  have h := (check_patterns_decision_rule ("give otp") ("")).1 (by decide)
  exact ⟨h.1, h.2.1⟩

/-- The concrete TRAI scenario input from the spec and
`tests/test_services.py::TestTraiLogic`. -/
def c2_message : String :=
  "Dear customer, your pre-approved loan of 500000 is ready. Apply now. -P"

def c2_sender : String := "AD-HDFCBK"

/--
C2 (code_bug evaluation): `check_patterns` contains no TRAI regulated-header
logic at all — its result does not depend on the sender — so for the body
"Dear customer, your pre-approved loan of 500000 is ready. Apply now. -P"
from sender "AD-HDFCBK" the pattern stage returns HIGH / `loan_scam` / 0.88
(one `loan_scam` pattern matches), not the LOW / "Marketing/Spam" downgrade
asserted by the spec and by the repository's own test suite.  The same holds
for the full `ScamDetector.analyze` under every AI configuration, because
HIGH with confidence 0.88 ≥ 0.85 short-circuits before any model stage.
-/
theorem trai_input_classified_high :
    (ScamDetector.analyze_quick c2_message c2_sender).risk_level = "HIGH" ∧
    (ScamDetector.analyze_quick c2_message c2_sender).scam_type = some "loan_scam" ∧
    (ScamDetector.analyze_quick c2_message c2_sender).confidence = 0.88 ∧
    ∀ (lm : Option DetectVerdict) (gq : Option (Except Unit DetectVerdict)),
      ScamDetector.analyze lm gq c2_message c2_sender =
        ScamDetector.analyze_quick c2_message c2_sender := by
  have h : matchesIn (lowerChars c2_message) Pat.HIGH_RISK_PATTERNS = ["loan_scam"] := by
    decide
  refine ⟨?_, ?_, ?_, ?_⟩
  · simp only [ScamDetector.analyze_quick, PatVerdict.toDetect, check_patterns, h]
  · simp only [ScamDetector.analyze_quick, PatVerdict.toDetect, check_patterns, h]
  · simp only [ScamDetector.analyze_quick, PatVerdict.toDetect, check_patterns, h]
    norm_num [min_def]
  · intro lm gq
    have hc : ((check_patterns c2_message c2_sender).risk_level = "HIGH" ∧
        (0.85 : ℚ) ≤ (check_patterns c2_message c2_sender).confidence) ∨
        ((check_patterns c2_message c2_sender).risk_level = "LOW" ∧
        (0.9 : ℚ) ≤ (check_patterns c2_message c2_sender).confidence) := by
      left
      refine ⟨by simp [check_patterns, h], ?_⟩
      simp only [check_patterns, h]
      norm_num [min_def]
    simp only [ScamDetector.analyze]
    rw [if_pos hc]
    rfl

/-- A benign message: no HIGH or MEDIUM pattern matches. -/
def c1_message : String := "Hello friend, lets meet for lunch at 12pm."

def c1_sender : String := "+919876543210"

/--
C1 (code_bug evaluation): `analyze_sms` persists the full message body
unconditionally.  For a benign input the detector (patterns only — no local
model, no Groq client) returns LOW, and the committed `Scan` row still
carries the complete body, violating the LOW ⇒ null-stored-body invariant
asserted by the spec and checked by the repository's own
`_archive/verify_optimizations.py`.
-/
theorem low_scan_stores_full_body :
    (analyze_sms_scan 1 c1_sender c1_message
      (ScamDetector.analyze none none c1_message c1_sender)).risk_level = "LOW" ∧
    (analyze_sms_scan 1 c1_sender c1_message
      (ScamDetector.analyze none none c1_message c1_sender)).message = some c1_message ∧
    (analyze_sms_scan 1 c1_sender c1_message
      (ScamDetector.analyze none none c1_message c1_sender)).message ≠ none := by
  have hh : matchesIn (lowerChars c1_message) Pat.HIGH_RISK_PATTERNS = [] := by decide
  have hm : matchesIn (lowerChars c1_message) Pat.MEDIUM_RISK_PATTERNS = [] := by decide
  have hnc : ¬ (((check_patterns c1_message c1_sender).risk_level = "HIGH" ∧
        (0.85 : ℚ) ≤ (check_patterns c1_message c1_sender).confidence) ∨
        ((check_patterns c1_message c1_sender).risk_level = "LOW" ∧
        (0.9 : ℚ) ≤ (check_patterns c1_message c1_sender).confidence)) := by
    rintro (⟨h1, _⟩ | ⟨_, h2⟩)
    · rw [show (check_patterns c1_message c1_sender).risk_level = "LOW" by
        simp [check_patterns, hh, hm]] at h1
      exact absurd h1 (by decide)
    · rw [show (check_patterns c1_message c1_sender).confidence = 0.7 by
        simp [check_patterns, hh, hm]] at h2
      norm_num at h2
  have hres : ScamDetector.analyze none none c1_message c1_sender =
      { risk_level := "LOW", reason := "No suspicious patterns detected",
        scam_type := none, confidence := 0.7 } := by
    simp only [ScamDetector.analyze]
    rw [if_neg hnc]
    simp [analyzeGroqStage, PatVerdict.toDetect, check_patterns, hh, hm]
  rw [hres]
  exact ⟨rfl, rfl, by simp [analyze_sms_scan]⟩


/-! ### Confidence-scorer lemmas (C9, C10) -/

/-- `round(x, 2)` is the identity on exact multiples of `1/100`. -/
theorem pyRound2_cent (n : ℤ) : pyRound2 ((n : ℚ) / 100) = (n : ℚ) / 100 := by
  have h1 : ((n : ℚ) / 100) * 100 = ((n : ℤ) : ℚ) := by
    field_simp
  simp only [pyRound2, h1, Int.floor_intCast, sub_self]
  norm_num

/-- Both band edges are multiples of `1/100`, for every level string. -/
theorem thresholds_cent (lvl : String) :
    ∃ a b : ℤ, thresholds lvl = ((a : ℚ) / 100, (b : ℚ) / 100) := by
  unfold thresholds
  split_ifs
  · exact ⟨75, 100, by norm_num⟩
  · exact ⟨45, 74, by norm_num⟩
  · exact ⟨0, 44, by norm_num⟩
  · exact ⟨0, 100, by norm_num⟩

/-- Evaluation of `calibrate_for_risk_level` below the band. -/
theorem calibrate_eval_below (lvl : String) (raw : ℚ)
    (h : raw < (thresholds lvl).1) :
    calibrate_for_risk_level lvl raw =
      { risk_level := lvl, confidence := pyRound2 ((thresholds lvl).1 + 0.05),
        adjusted := true } := by
  simp only [calibrate_for_risk_level]
  rw [if_pos h]
  rw [if_neg (by intro he; rw [he] at h; linarith)]

/-- Evaluation of `calibrate_for_risk_level` above the band. -/
theorem calibrate_eval_above (lvl : String) (raw : ℚ)
    (h : (thresholds lvl).2 < raw) :
    calibrate_for_risk_level lvl raw =
      { risk_level := lvl, confidence := pyRound2 (thresholds lvl).2,
        adjusted := true } := by
  have hmm : (thresholds lvl).1 ≤ (thresholds lvl).2 := by
    unfold thresholds
    split_ifs <;> norm_num
  simp only [calibrate_for_risk_level]
  rw [if_neg (not_lt.mpr (le_trans hmm (le_of_lt h)))]
  rw [if_pos h]
  rw [if_neg (ne_of_gt h)]

/-- Evaluation of `calibrate_for_risk_level` inside the band. -/
theorem calibrate_eval_inband (lvl : String) (raw : ℚ)
    (h1 : (thresholds lvl).1 ≤ raw) (h2 : raw ≤ (thresholds lvl).2) :
    calibrate_for_risk_level lvl raw =
      { risk_level := lvl, confidence := pyRound2 raw, adjusted := false } := by
  simp only [calibrate_for_risk_level]
  rw [if_neg (not_lt.mpr h1)]
  rw [if_neg (not_lt.mpr h2)]
  rw [if_pos rfl]

/--
C9 counterexample: for level HIGH and raw confidence 0.5 (below the HIGH band
[0.75, 1.0]) the code returns confidence 0.8 = 0.75 + 0.05, not the band's
nearest edge 0.75 that the claim asserts.
-/
theorem calibrate_low_side_not_clamped :
    (calibrate_for_risk_level ("HIGH") (0.5)).confidence = 0.8 ∧
    ¬ (calibrate_for_risk_level ("HIGH") (0.5)).confidence = 0.75 ∧
    (calibrate_for_risk_level ("HIGH") (0.5)).adjusted = true := by
  have hb : thresholds ("HIGH") = (0.75, 1.0) := by simp [thresholds]
  have h : calibrate_for_risk_level ("HIGH") (0.5) =
      { risk_level := "HIGH", confidence := pyRound2 ((thresholds ("HIGH")).1 + 0.05),
        adjusted := true } :=
    calibrate_eval_below ("HIGH") 0.5 (by rw [hb]; norm_num)
  rw [h, hb]
  have h8 : pyRound2 ((0.75 : ℚ) + 0.05) = 0.8 := by
    rw [show ((0.75 : ℚ) + 0.05) = ((80 : ℤ) : ℚ) / 100 by norm_num, pyRound2_cent]
    norm_num
  exact ⟨by simpa using h8, by rw [show ((0.75:ℚ), (1.0:ℚ)).1 + 0.05 = (0.75:ℚ) + 0.05 from rfl, h8]; norm_num, rfl⟩

/--
C9 amended: for every level and every raw confidence that is an exact
multiple of 1/100 (so that the final `round(, 2)` is the identity),
`calibrate_for_risk_level` returns the confidence unchanged with
`adjusted = false` inside the band, clamps to the band's upper edge with
`adjusted = true` above the band, and sets the confidence to the band's
lower edge **plus 0.05** with `adjusted = true` below the band.
-/
theorem calibrate_band_behavior (lvl : String) (raw : ℚ) (n : ℤ)
    (hn : raw = (n : ℚ) / 100) :
    ((thresholds lvl).1 ≤ raw → raw ≤ (thresholds lvl).2 →
      calibrate_for_risk_level lvl raw =
        { risk_level := lvl, confidence := raw, adjusted := false }) ∧
    ((thresholds lvl).2 < raw →
      calibrate_for_risk_level lvl raw =
        { risk_level := lvl, confidence := (thresholds lvl).2, adjusted := true }) ∧
    (raw < (thresholds lvl).1 →
      calibrate_for_risk_level lvl raw =
        { risk_level := lvl, confidence := (thresholds lvl).1 + 0.05,
          adjusted := true }) := by
  obtain ⟨a, b, hab⟩ := thresholds_cent lvl
  refine ⟨?_, ?_, ?_⟩
  · intro h1 h2
    rw [calibrate_eval_inband lvl raw h1 h2, hn, pyRound2_cent]
  · intro h
    rw [calibrate_eval_above lvl raw h, hab]
    rw [show (((a : ℚ) / 100, (b : ℚ) / 100) : ℚ × ℚ).2 = (b : ℚ) / 100 from rfl,
      pyRound2_cent]
  · intro h
    rw [calibrate_eval_below lvl raw h, hab]
    rw [show (((a : ℚ) / 100, (b : ℚ) / 100) : ℚ × ℚ).1 = (a : ℚ) / 100 from rfl]
    rw [show ((a : ℚ) / 100 + 0.05) = ((a + 5 : ℤ) : ℚ) / 100 by push_cast; ring,
      pyRound2_cent]

/-- Witness for C9 at MEDIUM / 0.6: inside the band, so the confidence is
returned unchanged with `adjusted = false`. -/
theorem calibrate_band_behavior_witness :
    calibrate_for_risk_level ("MEDIUM") (0.6) =
      { risk_level := "MEDIUM", confidence := 0.6, adjusted := false } :=
  (calibrate_band_behavior ("MEDIUM") 0.6 60 (by norm_num)).1
    (by simp [thresholds]; norm_num) (by simp [thresholds]; norm_num)

/--
C10 counterexample: the smoothing is not monotonic.  At the boundary of the
low branch, `smooth(0.1) = 0.15` but `smooth(0.12) = 0.12`, so the input
0.1 ≤ 0.12 maps to a strictly larger output.
-/
theorem smooth_score_not_monotone :
    (0.1 : ℚ) ≤ 0.12 ∧ smooth_score 0.12 < smooth_score 0.1 := by
  have h1 : smooth_score 0.1 = 0.15 := by
    simp only [smooth_score]
    rw [show max 0 (min 1 (0.1 : ℚ)) = 0.1 by norm_num [min_def, max_def]]
    rw [if_pos (by norm_num : (0.1 : ℚ) ≤ 0.1)]
    norm_num
  have h2 : smooth_score 0.12 = 0.12 := by
    simp only [smooth_score]
    rw [show max 0 (min 1 (0.12 : ℚ)) = 0.12 by norm_num [min_def, max_def]]
    rw [if_neg (by norm_num), if_neg (by norm_num)]
  refine ⟨by norm_num, ?_⟩
  rw [h1, h2]
  norm_num

/--
C10 amended: `_smooth_score` is monotone on each of its three branches
(inputs ≤ 0.1, inputs strictly between 0.1 and 0.9, inputs ≥ 0.9), though
not globally.
-/
theorem smooth_score_monotone_on_branches (x y : ℚ) (hx0 : 0 ≤ x) (hy1 : y ≤ 1)
    (hxy : x ≤ y)
    (hbr : y ≤ 0.1 ∨ (0.1 < x ∧ y < 0.9) ∨ 0.9 ≤ x) :
    smooth_score x ≤ smooth_score y := by
  have hx1 : x ≤ 1 := le_trans hxy hy1
  have hy0 : 0 ≤ y := le_trans hx0 hxy
  have cx : max 0 (min 1 x) = x := by rw [min_eq_right hx1, max_eq_right hx0]
  have cy : max 0 (min 1 y) = y := by rw [min_eq_right hy1, max_eq_right hy0]
  simp only [smooth_score, cx, cy]
  rcases hbr with h | ⟨h1, h2⟩ | h
  · rw [if_pos (le_trans hxy h), if_pos h]
    linarith
  · rw [if_neg (by linarith), if_neg (by linarith),
      if_neg (by linarith), if_neg (by linarith)]
    exact hxy
  · rw [if_neg (by linarith), if_pos h,
      if_neg (by linarith), if_pos (le_trans h hxy)]
    linarith

/-- Witness for C10 on the middle branch: 0.2 ≤ 0.5 gives
`smooth(0.2) ≤ smooth(0.5)`. -/
theorem smooth_score_monotone_on_branches_witness :
    smooth_score 0.2 ≤ smooth_score 0.5 :=
  smooth_score_monotone_on_branches 0.2 0.5 (by norm_num) (by norm_num)
    (by norm_num) (Or.inr (Or.inl ⟨by norm_num, by norm_num⟩))


/-! ### Blacklist cache behaviour (C4) -/

/--
C4 counterexample: reporting an already-listed phone number through
`auto_blacklist` increments `reports_count` but performs **no** cache
invalidation — the stale `bl:<hash>` entry survives the write (digest
abstracted as the identity map; the claim requires the key to be deleted
before the call returns for every digest).
-/
theorem blacklist_increment_cache_stale :
    ((auto_blacklist id ("+919999999999") ("phone") ("community") 5
      { entries := [{
          type := "phone"
          value := "+919999999999"
          value_hash := "+919999999999"
          source := "community"
          reports_count := 1
          first_reported_at := 0
          last_reported_at := 0
          is_verified := false }]
        cache := [("bl:+919999999999", "cached")] }).1.cache
      = [("bl:+919999999999", "cached")]) ∧
    ((auto_blacklist id ("+919999999999") ("phone") ("community") 5
      { entries := [{
          type := "phone"
          value := "+919999999999"
          value_hash := "+919999999999"
          source := "community"
          reports_count := 1
          first_reported_at := 0
          last_reported_at := 0
          is_verified := false }]
        cache := [("bl:+919999999999", "cached")] }).2 = false) := by
  constructor <;> rfl

/--
C4 amended: only the *insert* path of `auto_blacklist` deletes the cache key
`bl:<hash>` (after the DB commit, before returning); the *increment* path of
`auto_blacklist` and both paths of `report_scam` leave the cache untouched.
-/
theorem blacklist_write_cache_behavior (H : String → String)
    (v t src : String) (now : Nat) (st : BLState) :
    ((∃ e ∈ st.entries,
        (e.value_hash == H (normalize_value v t) && e.type == t) = true) →
      (auto_blacklist H v t src now st).1.cache = st.cache) ∧
    ((t = "url" ∨ t = "phone" ∨ t = "domain") →
      (∀ e ∈ st.entries,
        ¬ (e.value_hash == H (normalize_value v t) && e.type == t) = true) →
      (auto_blacklist H v t src now st).1.cache =
        st.cache.filter (fun kv => !(kv.1 == "bl:" ++ H (normalize_value v t)))) ∧
    (∀ r, report_scam H v t now st = .ok r → r.1.cache = st.cache) := by
  refine ⟨?_, ?_, ?_⟩
  · rintro ⟨e, he, hpe⟩
    unfold auto_blacklist
    by_cases hval : t = "url" ∨ t = "phone" ∨ t = "domain"
    · rw [if_neg (not_not_intro hval)]
      cases hf : st.entries.find?
          (fun e => e.value_hash == H (normalize_value v t) && e.type == t) with
      | some e' => simp only [hf]
      | none => exact absurd hpe (by simpa using List.find?_eq_none.mp hf e he)
    · rw [if_pos hval]
  · intro hval hall
    unfold auto_blacklist
    rw [if_neg (not_not_intro hval)]
    cases hf : st.entries.find?
        (fun e => e.value_hash == H (normalize_value v t) && e.type == t) with
    | some e' =>
        exact absurd (List.find?_some hf) (hall e' (List.mem_of_find?_eq_some hf))
    | none => simp only [hf]
  · intro r hr
    unfold report_scam at hr
    by_cases hval : t = "url" ∨ t = "phone" ∨ t = "domain"
    · rw [if_neg (not_not_intro hval)] at hr
      cases hf : st.entries.find?
          (fun e => e.value_hash == H (normalize_value v t) && e.type == t) with
      | some e' =>
          simp only [hf, Except.ok.injEq] at hr
          subst hr
          rfl
      | none =>
          simp only [hf, Except.ok.injEq] at hr
          subst hr
          rfl
    · rw [if_pos hval] at hr
      simp at hr

/-- Witness for C4: inserting a fresh URL removes exactly its `bl:` key from
the cache and leaves other keys in place. -/
theorem blacklist_write_cache_behavior_witness :
    (auto_blacklist id ("scam.example") ("url") ("ai_auto") 0
      { entries := [], cache := [("bl:scam.example", "x"), ("other", "y")] }).1.cache
      = [("other", "y")] := by
  have h := (blacklist_write_cache_behavior id ("scam.example") ("url") ("ai_auto") 0
      { entries := [], cache := [("bl:scam.example", "x"), ("other", "y")] }).2.1
    (Or.inl rfl) (by simp)
  exact h.trans (by decide)

/-! ### Archiver ordering (C7) -/

/--
C7: `archive_old_scans` deletes rows only after a successful storage write:
a failed write leaves the store untouched; a successful write followed by a
failed delete leaves the store untouched and reports the warning dict with
the written path; and any change to the store implies the write succeeded
and the delete ran.
-/
theorem archiver_write_before_delete (db : List ScanRow) (now days : Int)
    (wo : Except String String) (del : Bool) :
    (∀ e, wo = .error e → (archive_old_scans db now days wo del).1 = db) ∧
    (∀ path, wo = .ok path → del = false →
      db.filter (fun s => decide (s.created_at < now - days * 86400)) ≠ [] →
      archive_old_scans db now days wo del = (db, .warned path)) ∧
    ((archive_old_scans db now days wo del).1 ≠ db →
      del = true ∧ ∃ path, wo = .ok path) := by
  unfold archive_old_scans
  cases hsel : (db.filter (fun s => decide (s.created_at < now - days * 86400))).isEmpty
  case true =>
    simp only [hsel]
    exact ⟨fun _ _ => rfl,
      fun path _ _ hne => absurd (List.isEmpty_iff.mp hsel) hne,
      fun hne => absurd rfl hne⟩
  case false =>
    simp only [hsel]
    cases wo with
    | error e =>
        exact ⟨fun _ _ => rfl, fun path hok => by simp at hok,
          fun hne => absurd rfl hne⟩
    | ok path =>
        cases del with
        | false =>
            refine ⟨fun e he => by simp at he, fun p hp _ _ => ?_,
              fun hne => absurd rfl hne⟩
            cases hp
            rfl
        | true =>
            exact ⟨fun e he => by simp at he, fun p _ hdel => by simp at hdel,
              fun _ => ⟨rfl, path, rfl⟩⟩

/-- Witness for C7: one stale row, storage write fails — the row stays. -/
theorem archiver_write_before_delete_witness :
    (archive_old_scans [{ id := 1, created_at := 0 }] (86400 * 200) 180
      (.error ("disk full")) true).1 = [{ id := 1, created_at := 0 }] :=
  (archiver_write_before_delete [{ id := 1, created_at := 0 }] (86400 * 200) 180
      (.error ("disk full")) true).1 ("disk full") rfl

/-! ### OTP issuance (C6) -/

/--
C6 counterexample: `generate_link_otp` persists the OTP **in the store of
record** — it writes a pending `GuardianLink` row carrying `otp_code` and
`otp_expires_at` to the `guardian_links` table, and no KV cache is involved
anywhere in the flow.  The claim that a pending issuance lives only in the
KV cache and is never persisted is false at this input.
-/
theorem otp_persisted_in_db :
    GLink.generate_link_otp ⟨1, "alice@example.com"⟩ ("123456") 1 0
        { users := [⟨1, "alice@example.com"⟩], links := [] } =
      .ok ({ users := [⟨1, "alice@example.com"⟩]
             links := [{
               id := 1
               user_id := 1
               guardian_id := none
               otp_code := some ("123456")
               otp_expires_at := some 600
               status := "pending"
               verified_at := none }] }, 10) :=
  rfl

/--
C6 amended: when the caller is not an active guardian for anyone,
`generate_link_otp` succeeds, reports a 10-minute validity, and stores the
code on a pending `GuardianLink` row in the store of record with expiry
`now + 600` seconds.
-/
theorem generate_otp_pending_row (cu : GLink.UserRec) (otp : String)
    (newId now : Nat) (st : GLink.GLState)
    (h : st.links.any (fun l => l.guardian_id == some cu.id && l.status == "active")
        = false) :
    ∃ st1, GLink.generate_link_otp cu otp newId now st = .ok (st1, 10) ∧
      ∃ l ∈ st1.links, l.user_id = cu.id ∧ l.otp_code = some otp ∧
        l.otp_expires_at = some (now + 600) ∧ l.status = "pending" := by
  unfold GLink.generate_link_otp
  rw [if_neg (by simp [h])]
  cases hf : st.links.find? (fun l => l.user_id == cu.id && l.status == "pending") with
  | some ex =>
      simp only [hf]
      refine ⟨_, rfl, ?_⟩
      have hmem := List.mem_of_find?_eq_some hf
      have hpred := List.find?_some hf
      rw [Bool.and_eq_true, beq_iff_eq, beq_iff_eq] at hpred
      refine ⟨{ ex with otp_code := some otp, otp_expires_at := some (now + 600) },
        ?_, hpred.1, rfl, rfl, hpred.2⟩
      simp only [List.mem_map]
      exact ⟨ex, hmem, by rw [if_pos (beq_self_eq_true ex.id)]⟩
  | none =>
      simp only [hf]
      refine ⟨_, rfl, ?_⟩
      refine ⟨{
        id := newId
        user_id := cu.id
        guardian_id := none
        otp_code := some otp
        otp_expires_at := some (now + 600)
        status := "pending"
        verified_at := none }, ?_, rfl, rfl, rfl, rfl⟩
      exact List.mem_append_right _ (List.mem_singleton.mpr rfl)

/-- Witness for C6 on an empty store. -/
theorem generate_otp_pending_row_witness :
    ∃ st1, GLink.generate_link_otp ⟨2, "bob@example.com"⟩ ("999999") 5 100
        { users := [], links := [] } = .ok (st1, 10) ∧
      ∃ l ∈ st1.links, l.user_id = 2 ∧ l.otp_code = some ("999999") ∧
        l.otp_expires_at = some (100 + 600) ∧ l.status = "pending" :=
  generate_otp_pending_row ⟨2, "bob@example.com"⟩ ("999999") 5 100
    { users := [], links := [] } rfl


/-! ### OTP verification is single-use (C5) -/

/--
C5: if `verify_otp_and_link` succeeds for some guardian — which activates the
pending link, stamps `verified_at`, and nulls `otp_code`/`otp_expires_at` in
the same committed update — then a second `verify_otp_and_link` with the same
request (same protected email and same code), by **any** caller and at any
later time, returns an error; since every error path returns before any
write, no additional active link is created.  The `huniq` hypothesis is the
invariant `generate_link_otp` maintains: at most one pending link per
protected user.
-/
theorem verify_otp_single_use (st : GLink.GLState) (cu : GLink.UserRec)
    (d : GLink.VerifyReq) (now : Nat) (st' : GLink.GLState)
    (hok : GLink.verify_otp_and_link cu d now st = .ok st')
    (huniq : ∀ l1 ∈ st.links, ∀ l2 ∈ st.links,
      l1.status = "pending" → l2.status = "pending" →
      l1.user_id = l2.user_id → l1 = l2) :
    ∀ (g2 : GLink.UserRec) (now2 : Nat),
      ∃ e, GLink.verify_otp_and_link g2 d now2 st' = .error e := by
  unfold GLink.verify_otp_and_link at hok
  split at hok
  · exact absurd hok (by simp)
  split at hok
  · exact absurd hok (by simp)
  rename_i pu hpu
  split at hok
  · exact absurd hok (by simp)
  rename_i hg3
  split at hok
  · exact absurd hok (by simp)
  rename_i hg4
  split at hok
  · exact absurd hok (by simp)
  rename_i link hlink
  -- every surviving branch returns `.ok (activateLink st link cu now)`
  have hst' : st' = GLink.activateLink st link cu now := by
    split at hok
    · rename_i exp hexp
      split at hok
      · exact absurd hok (by simp)
      · exact (Except.ok.injEq _ _).mp hok |>.symm
    · exact (Except.ok.injEq _ _).mp hok |>.symm
  subst hst'
  -- facts about the consumed link
  have hlinkmem : link ∈ st.links := List.mem_of_find?_eq_some hlink
  have hlinkpred := List.find?_some hlink
  rw [Bool.and_eq_true, Bool.and_eq_true, beq_iff_eq, beq_iff_eq, beq_iff_eq]
    at hlinkpred
  obtain ⟨⟨hlu, hlc⟩, hls⟩ := hlinkpred
  intro g2 now2
  unfold GLink.verify_otp_and_link
  by_cases h1 : g2.email = d.user_email
  · rw [if_pos h1]
    exact ⟨_, rfl⟩
  rw [if_neg h1]
  rw [show (GLink.activateLink st link cu now).users = st.users from rfl]
  simp only [hpu]
  by_cases hg3b : ((GLink.activateLink st link cu now).links.any
      (fun l => l.user_id == g2.id && l.status == "active")) = true
  · rw [if_pos hg3b]
    exact ⟨_, rfl⟩
  rw [if_neg hg3b]
  by_cases hg4b : ((GLink.activateLink st link cu now).links.any
      (fun l => l.guardian_id == some pu.id && l.status == "active")) = true
  · rw [if_pos hg4b]
    exact ⟨_, rfl⟩
  rw [if_neg hg4b]
  have hnone : (GLink.activateLink st link cu now).links.find?
      (fun l => l.user_id == pu.id && l.otp_code == some d.otp_code &&
        l.status == "pending") = none := by
    rw [List.find?_eq_none]
    intro x hx
    simp only [GLink.activateLink, List.mem_map] at hx
    obtain ⟨l0, hl0, rfl⟩ := hx
    by_cases hid : (l0.id == link.id) = true
    · rw [if_pos hid]
      simp
    · rw [if_neg hid]
      intro hp
      rw [Bool.and_eq_true, Bool.and_eq_true, beq_iff_eq, beq_iff_eq,
        beq_iff_eq] at hp
      obtain ⟨⟨h0u, _⟩, h0s⟩ := hp
      have hll : l0 = link := huniq l0 hl0 link hlinkmem h0s hls (h0u.trans hlu.symm)
      rw [hll] at hid
      exact hid (beq_self_eq_true link.id)
  simp only [hnone]
  exact ⟨_, rfl⟩

/--
Witness for C5: guardian B verifies A's code "111222" successfully; the
resulting state rejects a second verification of the same code by B.
-/
theorem verify_otp_single_use_witness :
    ∃ e, GLink.verify_otp_and_link ⟨2, "b@x.com"⟩ ⟨"a@x.com", "111222"⟩ 9
      { users := [⟨1, "a@x.com"⟩, ⟨2, "b@x.com"⟩]
        links := [{
          id := 1
          user_id := 1
          guardian_id := some 2
          otp_code := none
          otp_expires_at := none
          status := "active"
          verified_at := some 5 }] } = .error e :=
  verify_otp_single_use
    { users := [⟨1, "a@x.com"⟩, ⟨2, "b@x.com"⟩]
      links := [{
        id := 1
        user_id := 1
        guardian_id := none
        otp_code := some ("111222")
        otp_expires_at := some 1000
        status := "pending"
        verified_at := none }] }
    ⟨2, "b@x.com"⟩ ⟨"a@x.com", "111222"⟩ 5 _ (by rfl) (by decide) ⟨2, "b@x.com"⟩ 9

/-! ### Guardian alert fan-out wiring (C3) -/

/--
C3 (code_bug evaluation): the intended fan-out
`GuardianAlertService.create_alerts_for_scan` does create exactly one pending
`GuardianAlert` per active guardian link and marks the scan — at this input,
one link for user 1, HIGH scan 42, threshold HIGH, it yields exactly that one
alert and `guardian_alerted = true`.  But the function the SMS route actually
schedules is the module-local `send_guardian_alerts` of `sms.py` (which
shadows the imported service helper): it creates no `GuardianAlert` row for
any input.  Moreover `analyze_sms` only schedules the fan-out when the
verdict is HIGH, so a MEDIUM scan never reaches the service even when the
user's threshold is MEDIUM.
-/
theorem fanout_wiring_divergence :
    (GAlert.create_alerts_for_scan (some ("HIGH")) [⟨1, some 7, "active"⟩] 1 42
        ("HIGH") false = ([⟨7, 1, 42, "pending"⟩], true, 1)) ∧
    (∀ (legacy : List GAlert.LegacyGuardian) (flag : Bool),
      (GAlert.sms_send_guardian_alerts legacy 1 flag).1 = []) ∧
    (∀ (reason : String) (sc : Option String) (conf : ℚ),
      analyze_sms_schedules_fanout
        { risk_level := "MEDIUM", reason := reason, scam_type := sc,
          confidence := conf } = false) := by
  refine ⟨by decide, ?_, ?_⟩
  · intro legacy flag
    simp only [GAlert.sms_send_guardian_alerts, ite_self]
  · intro reason sc conf
    rfl

end Detooz
